import Mathlib

/-!
# Verification of the nockchain file IO driver

Shallow embedding of `src/crates/nockapp/src/drivers/file.rs` (the `file()`
driver loop) and proofs of the spec's claims about it.

Nouns (the `TreeValue`s of the spec) are modelled as in nockvm: an atom is a
natural number, a cell is an ordered pair of nouns.  The filesystem and the
byte/string helpers that live outside `src/` are modelled as an explicit
oracle environment, respectively as spec-modelled pure functions.
-/

/-- A noun: an atom (arbitrary natural number) or a cell (ordered pair).
Mirrors `nockvm::noun::Noun` as consumed by the driver. -/
inductive Noun where
  | atom (n : Nat) : Noun
  | cell (head tail : Noun) : Noun
deriving DecidableEq, Repr

/-- Little-endian byte list to natural number (the value an atom built from
raw bytes has, cf. `IndirectAtom::new_raw_bytes_ref(..).normalize_as_atom()`). -/
def bytesToNatLE : List Nat → Nat
  | [] => 0
  | b :: rest => b + 256 * bytesToNatLE rest

/-- Fuel-driven little-endian byte expansion of a natural number. -/
def natToBytesLEAux : Nat → Nat → List Nat
  | 0, _ => []
  | fuel + 1, n => if n = 0 then [] else n % 256 :: natToBytesLEAux fuel (n / 256)

/-- Modelled from the spec: atomics "carry raw bytes"; the bytes of an atom
are its minimal little-endian byte representation (the bytes `as_ne_bytes` /
`into_string` operate on — those helpers are outside `src/`). -/
def natToBytesLE (n : Nat) : List Nat := natToBytesLEAux n n

/-- The `tas!` macro: an ASCII string as a little-endian numeric tag. -/
def tas (s : String) : Nat := bytesToNatLE (s.toList.map Char.toNat)

/-- `Atom::as_direct` succeeds exactly on atoms that fit a 63-bit direct
atom; on cells (`Cell::as_direct` is unreachable here) and indirect atoms it
fails.  Returns the direct atom's data. -/
def asDirect : Noun → Option Nat
  | .atom n => if n < 2 ^ 63 then some n else none
  | .cell _ _ => none

/-- Modelled from the spec: `String::from_utf8` validity (“If decoding the
bytes as UTF-8 fails, this is a fatal decode error”).  Standard UTF-8
well-formedness of a byte sequence. -/
def utf8Valid : List Nat → Bool
  | [] => true
  | b :: rest =>
    if b < 0x80 then utf8Valid rest
    else if 0xC2 ≤ b ∧ b ≤ 0xDF then
      match rest with
      | c :: rest2 => decide (0x80 ≤ c ∧ c ≤ 0xBF) && utf8Valid rest2
      | [] => false
    else if b = 0xE0 then
      match rest with
      | c1 :: c2 :: rest2 =>
        decide (0xA0 ≤ c1 ∧ c1 ≤ 0xBF) && decide (0x80 ≤ c2 ∧ c2 ≤ 0xBF) && utf8Valid rest2
      | _ => false
    else if (0xE1 ≤ b ∧ b ≤ 0xEC) ∨ b = 0xEE ∨ b = 0xEF then
      match rest with
      | c1 :: c2 :: rest2 =>
        decide (0x80 ≤ c1 ∧ c1 ≤ 0xBF) && decide (0x80 ≤ c2 ∧ c2 ≤ 0xBF) && utf8Valid rest2
      | _ => false
    else if b = 0xED then
      match rest with
      | c1 :: c2 :: rest2 =>
        decide (0x80 ≤ c1 ∧ c1 ≤ 0x9F) && decide (0x80 ≤ c2 ∧ c2 ≤ 0xBF) && utf8Valid rest2
      | _ => false
    else if b = 0xF0 then
      match rest with
      | c1 :: c2 :: c3 :: rest2 =>
        decide (0x90 ≤ c1 ∧ c1 ≤ 0xBF) && decide (0x80 ≤ c2 ∧ c2 ≤ 0xBF) &&
          decide (0x80 ≤ c3 ∧ c3 ≤ 0xBF) && utf8Valid rest2
      | _ => false
    else if 0xF1 ≤ b ∧ b ≤ 0xF3 then
      match rest with
      | c1 :: c2 :: c3 :: rest2 =>
        decide (0x80 ≤ c1 ∧ c1 ≤ 0xBF) && decide (0x80 ≤ c2 ∧ c2 ≤ 0xBF) &&
          decide (0x80 ≤ c3 ∧ c3 ≤ 0xBF) && utf8Valid rest2
      | _ => false
    else if b = 0xF4 then
      match rest with
      | c1 :: c2 :: c3 :: rest2 =>
        decide (0x80 ≤ c1 ∧ c1 ≤ 0x8F) && decide (0x80 ≤ c2 ∧ c2 ≤ 0xBF) &&
          decide (0x80 ≤ c3 ∧ c3 ≤ 0xBF) && utf8Valid rest2
      | _ => false
    else false

/-- `WireRepr`: the correlation label attached to each poke
(`crate::nockapp::wire::WireRepr`). -/
structure WireRepr where
  source : String
  version : Nat
  tags : List String
deriving DecidableEq, Repr

/-- `FileWire` from the source: the two wires of this driver. -/
inductive FileWire where
  | read : FileWire
  | write : FileWire
deriving DecidableEq, Repr

/-- `FileWire::to_wire`: `SOURCE = "file"`, `VERSION = 1`, one tag. -/
def FileWire.toWire : FileWire → WireRepr
  | .read => ⟨"file", 1, ["read"]⟩
  | .write => ⟨"file", 1, ["write"]⟩

/-- The filesystem operations the loop performs, in order (used to state
that a write is or is not attempted). -/
inductive FsAction where
  | readF (path : List Nat) : FsAction
  | createDirAll (parent : List Nat) : FsAction
  | writeF (path contents : List Nat) : FsAction
deriving DecidableEq, Repr

/-- Oracle for the external filesystem (`tokio::fs`) and `Path::parent`:
`readFile` returns `some bytes` on success and `none` on any IO error;
`parent?` is `Path::new(path).parent()`; `createDirOk`/`writeOk` give the
outcome of `create_dir_all` and `fs::write`. -/
structure FsEnv where
  parent? : List Nat → Option (List Nat)
  createDirOk : List Nat → Bool
  readFile : List Nat → Option (List Nat)
  writeOk : List Nat → List Nat → Bool

/-- Observable outcome of one loop iteration: the pokes emitted (wire and
noun, in order), the filesystem actions performed (in order), and whether an
error propagated out of the loop body via `?` (ending the loop). -/
structure StepOutput where
  pokes : List (WireRepr × Noun)
  actions : List FsAction
  fatal : Bool
deriving DecidableEq, Repr

/-- `continue`: nothing emitted, nothing done, loop keeps running. -/
def skipOut : StepOutput := ⟨[], [], false⟩

/-- An error propagated out of the loop body by `?` before any IO. -/
def fatalOut : StepOutput := ⟨[], [], true⟩

/-- Right-nested tuple builder `T(&[a, b, c])` for three nouns. -/
def T3 (a b c : Noun) : Noun := .cell a (.cell b c)

/-- Right-nested tuple builder for four nouns. -/
def T4 (a b c d : Noun) : Noun := .cell a (.cell b (.cell c d))

/-- Right-nested tuple builder for five nouns. -/
def T5 (a b c d e : Noun) : Noun := .cell a (.cell b (.cell c (.cell d e)))

/-- Loobean flag: `YES = D(0)` for success, `NO = D(1)` for failure. -/
def flagNoun (success : Bool) : Noun := if success then .atom 0 else .atom 1

/-- Read arm after a successfully decoded path (lines 79–103): one
whole-file read; success emits the 4-tuple poke with the contents atom,
failure emits the 3-tuple poke; the `Read` wire either way. -/
def readDispatch (env : FsEnv) (pa : Nat) : StepOutput :=
  let path := natToBytesLE pa
  match env.readFile path with
  | some contents =>
    ⟨[(FileWire.read.toWire,
        T4 (.atom (tas "file")) (.atom (tas "read")) (.atom 0)
          (.atom (bytesToNatLE contents)))],
      [.readF path], false⟩
  | none =>
    ⟨[(FileWire.read.toWire,
        T3 (.atom (tas "file")) (.atom (tas "read")) (.atom 0))],
      [.readF path], false⟩

/-- The write poke noun (lines 121–129, 141–149, 158–166): the original
path and contents atoms echoed, then the loobean success flag. -/
def writePoke (pa ca : Nat) (success : Bool) : Noun :=
  T5 (.atom (tas "file")) (.atom (tas "write")) (.atom pa) (.atom ca)
    (flagNoun success)

/-- Write arm after a successfully decoded path and contents (lines
114–172): ensure parent directories when the path has a parent — on failure
emit the `NO` poke and continue without writing; otherwise write and emit
the poke carrying the write's outcome. -/
def writeDispatch (env : FsEnv) (pa ca : Nat) : StepOutput :=
  let path := natToBytesLE pa
  let contents := natToBytesLE ca
  match env.parent? path with
  | some parent =>
    if env.createDirOk parent then
      ⟨[(FileWire.write.toWire, writePoke pa ca (env.writeOk path contents))],
        [.createDirAll parent, .writeF path contents], false⟩
    else
      ⟨[(FileWire.write.toWire, writePoke pa ca false)],
        [.createDirAll parent], false⟩
  | none =>
    ⟨[(FileWire.write.toWire, writePoke pa ca (env.writeOk path contents))],
      [.writeF path contents], false⟩

/-- One iteration of the driver loop (`file.rs` lines 43–176).  The input is
the result of `handle.next_effect()`: `none` models a fetch error (line 47:
logged, loop continues), `some root` a fetched effect noun.  Control flow is
transcribed arm by arm:
* line 53: root not a cell → `continue`;
* line 57: head not the `%file` tag → `continue`;
* line 61: tail not a cell → `continue`;
* lines 65–74: the operation tag must be a *direct* atom equal to `%read`
  or `%write` (otherwise `continue`); for `%write` the remaining tail must
  be a cell (otherwise `continue`); the path position is taken `as_atom` —
  a cell there leaves `path_atom = None`, caught by the final
  `_ => continue` of lines 76/174;
* line 78 / line 112: a path atom whose bytes are not valid UTF-8 makes
  `?` propagate the error out of the loop (fatal);
* line 109: a write whose contents position is a cell → `continue`,
  checked before the path's UTF-8 decode. -/
def fileStep (env : FsEnv) (fetched : Option Noun) : StepOutput :=
  match fetched with
  | none => skipOut
  | some root =>
    match root with
    | .atom _ => skipOut
    | .cell head tail =>
      if head = Noun.atom (tas "file") then
        match tail with
        | .atom _ => skipOut
        | .cell opN fileTail =>
          match asDirect opN with
          | none => skipOut
          | some tag =>
            if tag = tas "read" then
              match fileTail with
              | .cell _ _ => skipOut
              | .atom pa =>
                if utf8Valid (natToBytesLE pa) then readDispatch env pa
                else fatalOut
            else if tag = tas "write" then
              match fileTail with
              | .atom _ => skipOut
              | .cell pn cn =>
                match pn with
                | .cell _ _ => skipOut
                | .atom pa =>
                  match cn with
                  | .cell _ _ => skipOut
                  | .atom ca =>
                    if utf8Valid (natToBytesLE pa) then writeDispatch env pa ca
                    else fatalOut
            else skipOut
      else skipOut

/-- The typed classification of a fetched noun, mirroring the decode part of
the loop (`FileRequest` of the spec, plus the fatal case):
`readReq`/`writeReq` carry the path (and contents) atoms of an accepted
request, `unrecognized` is every silently discarded shape, `fatalDecode` is
a correctly shaped request whose path bytes are not valid UTF-8. -/
inductive FileRequest where
  | readReq (pa : Nat) : FileRequest
  | writeReq (pa ca : Nat) : FileRequest
  | unrecognized : FileRequest
  | fatalDecode : FileRequest
deriving DecidableEq, Repr

/-- Classify a fetched noun exactly along the branch structure of
`fileStep` (lines 53–78 and 105–112 of the source). -/
def decodeRequest (root : Noun) : FileRequest :=
  match root with
  | .atom _ => .unrecognized
  | .cell head tail =>
    if head = Noun.atom (tas "file") then
      match tail with
      | .atom _ => .unrecognized
      | .cell opN fileTail =>
        match asDirect opN with
        | none => .unrecognized
        | some tag =>
          if tag = tas "read" then
            match fileTail with
            | .cell _ _ => .unrecognized
            | .atom pa =>
              if utf8Valid (natToBytesLE pa) then .readReq pa
              else .fatalDecode
          else if tag = tas "write" then
            match fileTail with
            | .atom _ => .unrecognized
            | .cell pn cn =>
              match pn with
              | .cell _ _ => .unrecognized
              | .atom pa =>
                match cn with
                | .cell _ _ => .unrecognized
                | .atom ca =>
                  if utf8Valid (natToBytesLE pa) then .writeReq pa ca
                  else .fatalDecode
          else .unrecognized
    else .unrecognized

/-- Dispatch a classified request (the IO part of the loop body). -/
def dispatch (env : FsEnv) : FileRequest → StepOutput
  | .readReq pa => readDispatch env pa
  | .writeReq pa ca => writeDispatch env pa ca
  | .unrecognized => skipOut
  | .fatalDecode => fatalOut

/-- Run the loop over a list of fetch results; the loop stops early when an
iteration is fatal (the `?` propagates out of the `async move` block).
Returns all pokes emitted, all filesystem actions performed, and whether the
loop died. -/
def runLoop (env : FsEnv) : List (Option Noun) → StepOutput
  | [] => ⟨[], [], false⟩
  | f :: rest =>
    let out := fileStep env f
    if out.fatal then ⟨out.pokes, out.actions, true⟩
    else
      let tailOut := runLoop env rest
      ⟨out.pokes ++ tailOut.pokes, out.actions ++ tailOut.actions, tailOut.fatal⟩

/-- A trivial concrete environment for witnesses: no file exists, no path
has a parent, every directory creation and write succeeds. -/
def nullEnv : FsEnv where
  parent? := fun _ => none
  createDirOk := fun _ => true
  readFile := fun _ => none
  writeOk := fun _ _ => true

/-- The wire a request's operation is answered on. -/
def requestWire : FileRequest → Option FileWire
  | .readReq _ => some .read
  | .writeReq _ _ => some .write
  | .unrecognized => none
  | .fatalDecode => none

/-- The `tas` tag of a wire's operation. -/
def wireTag : FileWire → Nat
  | .read => tas "read"
  | .write => tas "write"

theorem fileStep_none (env : FsEnv) : fileStep env none = skipOut := rfl

/-- One iteration is the dispatch of the classified request: the loop body
factors through `decodeRequest`. -/
theorem fileStep_decode (env : FsEnv) (n : Noun) :
    fileStep env (some n) = dispatch env (decodeRequest n) := by
  cases n with
  | atom a => rfl
  | cell head tail =>
    by_cases hh : head = Noun.atom (tas "file")
    · cases tail with
      | atom b => simp [fileStep, decodeRequest, dispatch, hh]
      | cell opN fileTail =>
        rcases hop : asDirect opN with _ | tag
        · simp [fileStep, decodeRequest, dispatch, hh, hop]
        · by_cases hr : tag = tas "read"
          · cases fileTail with
            | atom pa =>
              by_cases hu : utf8Valid (natToBytesLE pa) = true
              · simp [fileStep, decodeRequest, dispatch, hh, hop, hr, hu]
              · simp [fileStep, decodeRequest, dispatch, hh, hop, hr, hu]
            | cell x y => simp [fileStep, decodeRequest, dispatch, hh, hop, hr]
          · by_cases hw : tag = tas "write"
            · subst hw
              cases fileTail with
              | atom b => simp [fileStep, decodeRequest, dispatch, hh, hop, hr]
              | cell pn cn =>
                cases pn with
                | atom pa =>
                  cases cn with
                  | atom ca =>
                    by_cases hu : utf8Valid (natToBytesLE pa) = true
                    · simp [fileStep, decodeRequest, dispatch, hh, hop, hr, hu]
                    · simp [fileStep, decodeRequest, dispatch, hh, hop, hr, hu]
                  | cell x y =>
                    simp [fileStep, decodeRequest, dispatch, hh, hop, hr]
                | cell x y => simp [fileStep, decodeRequest, dispatch, hh, hop, hr]
            · simp [fileStep, decodeRequest, dispatch, hh, hop, hr, hw]
    · simp [fileStep, decodeRequest, dispatch, hh]

/-- A second concrete environment: exactly one readable file, at the
one-byte path `"a"` (`[97]`), containing the two bytes `"hi"`. -/
def oneFileEnv : FsEnv where
  parent? := fun _ => none
  createDirOk := fun _ => true
  readFile := fun p => if p = [97] then some [104, 105] else none
  writeOk := fun _ _ => true

/-- A third concrete environment: every path has the parent `[47]`
(`"/"`), and creating that directory always fails. -/
def noDirEnv : FsEnv where
  parent? := fun _ => some [47]
  createDirOk := fun _ => false
  readFile := fun _ => none
  writeOk := fun _ _ => true

/-- A well-shaped read effect noun `[%file %read path]`. -/
def readEffect (pa : Nat) : Noun :=
  T3 (.atom (tas "file")) (.atom (tas "read")) (.atom pa)

/-- A well-shaped write effect noun `[%file %write path contents]`. -/
def writeEffect (pa ca : Nat) : Noun :=
  T3 (.atom (tas "file")) (.atom (tas "write")) (.cell (.atom pa) (.atom ca))

theorem asDirect_read : asDirect (.atom (tas "read")) = some (tas "read") := by decide

theorem asDirect_write : asDirect (.atom (tas "write")) = some (tas "write") := by decide

theorem tas_read_ne_write : tas "read" ≠ tas "write" := by decide

theorem tas_write_ne_read : tas "write" ≠ tas "read" := by decide

theorem decodeRequest_read (pa : Nat) :
    decodeRequest (readEffect pa) =
      (if utf8Valid (natToBytesLE pa) = true then .readReq pa else .fatalDecode) := by
  simp [decodeRequest, readEffect, T3, asDirect_read]

theorem decodeRequest_write (pa ca : Nat) :
    decodeRequest (writeEffect pa ca) =
      (if utf8Valid (natToBytesLE pa) = true then .writeReq pa ca else .fatalDecode) := by
  simp [decodeRequest, writeEffect, T3, asDirect_write, tas_write_ne_read]

theorem runLoop_skip (env : FsEnv) (f : Option Noun) (rest : List (Option Noun))
    (h : fileStep env f = skipOut) :
    runLoop env (f :: rest) = runLoop env rest := by
  simp [runLoop, h, skipOut]

/-- C1: every effect that decodes to an accepted request (a `Read` or a
`Write`, i.e. not `Unrecognized` and not filtered) makes the loop emit
exactly one response, and that response carries the same operation tag
("read" or "write") as the request, both in its wire and in the poke noun's
second element. -/
theorem c1_accepted_one_response (env : FsEnv) (n : Noun) (w : FileWire)
    (h : requestWire (decodeRequest n) = some w) :
    (fileStep env (some n)).pokes.length = 1 ∧
    ∀ pk ∈ (fileStep env (some n)).pokes,
      pk.1 = FileWire.toWire w ∧
      ∃ rest, pk.2 = Noun.cell (.atom (tas "file")) (.cell (.atom (wireTag w)) rest) := by
  rw [fileStep_decode]
  cases hd : decodeRequest n with
  | readReq pa =>
    rw [hd] at h
    simp only [requestWire, Option.some.injEq] at h
    subst h
    simp only [dispatch, readDispatch]
    cases env.readFile (natToBytesLE pa) with
    | some contents =>
      refine ⟨rfl, ?_⟩
      intro pk hpk
      simp only [List.mem_singleton] at hpk
      subst hpk
      exact ⟨rfl, ⟨_, rfl⟩⟩
    | none =>
      refine ⟨rfl, ?_⟩
      intro pk hpk
      simp only [List.mem_singleton] at hpk
      subst hpk
      exact ⟨rfl, ⟨_, rfl⟩⟩
  | writeReq pa ca =>
    rw [hd] at h
    simp only [requestWire, Option.some.injEq] at h
    subst h
    simp only [dispatch, writeDispatch]
    cases env.parent? (natToBytesLE pa) with
    | some parent =>
      dsimp only
      by_cases hc : env.createDirOk parent = true
      · rw [if_pos hc]
        refine ⟨rfl, ?_⟩
        intro pk hpk
        simp only [List.mem_singleton] at hpk
        subst hpk
        exact ⟨rfl, ⟨_, rfl⟩⟩
      · rw [if_neg hc]
        refine ⟨rfl, ?_⟩
        intro pk hpk
        simp only [List.mem_singleton] at hpk
        subst hpk
        exact ⟨rfl, ⟨_, rfl⟩⟩
    | none =>
      refine ⟨rfl, ?_⟩
      intro pk hpk
      simp only [List.mem_singleton] at hpk
      subst hpk
      exact ⟨rfl, ⟨_, rfl⟩⟩
  | unrecognized => rw [hd] at h; simp [requestWire] at h
  | fatalDecode => rw [hd] at h; simp [requestWire] at h

/-- Witness for C1 at a concrete accepted read request. -/
theorem c1_accepted_one_response_witness :
    requestWire (decodeRequest (readEffect 97)) = some FileWire.read ∧
    ((fileStep nullEnv (some (readEffect 97))).pokes.length = 1 ∧
     ∀ pk ∈ (fileStep nullEnv (some (readEffect 97))).pokes,
       pk.1 = FileWire.toWire FileWire.read ∧
       ∃ rest,
         pk.2 = Noun.cell (.atom (tas "file"))
           (.cell (.atom (wireTag FileWire.read)) rest)) :=
  ⟨by decide, c1_accepted_one_response nullEnv (readEffect 97) FileWire.read (by decide)⟩

/-- C2: for every well-formed read request `("file", "read", path)` whose
path names an existing readable file, the emitted response is the 4-tuple
`("file", "read", 0, contents)` where the contents atom encodes exactly the
bytes of the file on disk. -/
theorem c2_read_ok_contents (env : FsEnv) (pa : Nat) (bytes : List Nat)
    (hu : utf8Valid (natToBytesLE pa) = true)
    (hr : env.readFile (natToBytesLE pa) = some bytes) :
    fileStep env (some (readEffect pa)) =
      ⟨[(FileWire.read.toWire,
          T4 (.atom (tas "file")) (.atom (tas "read")) (.atom 0)
            (.atom (bytesToNatLE bytes)))],
        [.readF (natToBytesLE pa)], false⟩ := by
  rw [fileStep_decode, decodeRequest_read, if_pos hu]
  simp [dispatch, readDispatch, hr]

/-- Witness for C2: reading the one-byte path `"a"` in the environment
whose only file lives there with contents `"hi"`. -/
theorem c2_read_ok_contents_witness :
    utf8Valid (natToBytesLE 97) = true ∧
    oneFileEnv.readFile (natToBytesLE 97) = some [104, 105] ∧
    fileStep oneFileEnv (some (readEffect 97)) =
      ⟨[(FileWire.read.toWire,
          T4 (.atom (tas "file")) (.atom (tas "read")) (.atom 0)
            (.atom (bytesToNatLE [104, 105])))],
        [.readF (natToBytesLE 97)], false⟩ :=
  ⟨by decide, by decide, c2_read_ok_contents oneFileEnv 97 [104, 105] (by decide) (by decide)⟩

/-- C3: for every well-formed read request whose filesystem read fails, the
emitted response is exactly the 3-tuple `("file", "read", 0)`, the loop does
not die (`fatal = false`), and the error tuple differs from every success
tuple by arity alone. -/
theorem c3_read_err_shape (env : FsEnv) (pa : Nat)
    (hu : utf8Valid (natToBytesLE pa) = true)
    (hr : env.readFile (natToBytesLE pa) = none) :
    fileStep env (some (readEffect pa)) =
      ⟨[(FileWire.read.toWire,
          T3 (.atom (tas "file")) (.atom (tas "read")) (.atom 0))],
        [.readF (natToBytesLE pa)], false⟩ ∧
    ∀ c : Noun,
      T3 (.atom (tas "file")) (.atom (tas "read")) (.atom 0) ≠
        T4 (.atom (tas "file")) (.atom (tas "read")) (.atom 0) c := by
  constructor
  · rw [fileStep_decode, decodeRequest_read, if_pos hu]
    simp [dispatch, readDispatch, hr]
  · intro c
    simp [T3, T4]

/-- Witness for C3: reading the path `"a"` in the environment with no
files. -/
theorem c3_read_err_shape_witness :
    utf8Valid (natToBytesLE 97) = true ∧
    nullEnv.readFile (natToBytesLE 97) = none ∧
    (fileStep nullEnv (some (readEffect 97)) =
      ⟨[(FileWire.read.toWire,
          T3 (.atom (tas "file")) (.atom (tas "read")) (.atom 0))],
        [.readF (natToBytesLE 97)], false⟩ ∧
     ∀ c : Noun,
       T3 (.atom (tas "file")) (.atom (tas "read")) (.atom 0) ≠
         T4 (.atom (tas "file")) (.atom (tas "read")) (.atom 0) c) :=
  ⟨by decide, by decide, c3_read_err_shape nullEnv 97 (by decide) (by decide)⟩

/-- C4: every decoded write request is answered with the 5-tuple
`("file", "write", path, contents, success)`: the path and contents atoms of
the request echoed unchanged, and the loobean success flag (`YES = 0`) true
exactly when directory creation (where needed) and the file write both
succeed. -/
theorem c4_write_response_echo (env : FsEnv) (pa ca : Nat)
    (hu : utf8Valid (natToBytesLE pa) = true) :
    (fileStep env (some (writeEffect pa ca))).pokes =
      [(FileWire.write.toWire,
        T5 (.atom (tas "file")) (.atom (tas "write")) (.atom pa) (.atom ca)
          (flagNoun
            ((match env.parent? (natToBytesLE pa) with
              | some parent => env.createDirOk parent
              | none => true) &&
              env.writeOk (natToBytesLE pa) (natToBytesLE ca))))] := by
  rw [fileStep_decode, decodeRequest_write, if_pos hu]
  simp only [dispatch, writeDispatch, writePoke]
  cases env.parent? (natToBytesLE pa) with
  | some parent =>
    dsimp only
    by_cases hc : env.createDirOk parent = true
    · rw [if_pos hc, hc]
      simp
    · rw [if_neg hc]
      simp only [Bool.not_eq_true] at hc
      rw [hc]
      simp
  | none => simp

/-- Witness for C4: a concrete write of contents `104` to the path `"a"`
in the environment where no path has a parent and every write succeeds. -/
theorem c4_write_response_echo_witness :
    utf8Valid (natToBytesLE 97) = true ∧
    (fileStep nullEnv (some (writeEffect 97 104))).pokes =
      [(FileWire.write.toWire,
        T5 (.atom (tas "file")) (.atom (tas "write")) (.atom 97) (.atom 104)
          (flagNoun
            ((match nullEnv.parent? (natToBytesLE 97) with
              | some parent => nullEnv.createDirOk parent
              | none => true) &&
              nullEnv.writeOk (natToBytesLE 97) (natToBytesLE 104))))] :=
  ⟨by decide, c4_write_response_echo nullEnv 97 104 (by decide)⟩

/-- C5: when the parent-directory creation step of a write fails, the file
write is never attempted — the iteration performs only the directory
creation, emits the `success = false` (`NO`) response, and the loop goes on
to the next effect. -/
theorem c5_dir_failure_no_write (env : FsEnv) (pa ca : Nat) (parent : List Nat)
    (hu : utf8Valid (natToBytesLE pa) = true)
    (hp : env.parent? (natToBytesLE pa) = some parent)
    (hc : env.createDirOk parent = false) :
    fileStep env (some (writeEffect pa ca)) =
      ⟨[(FileWire.write.toWire, writePoke pa ca false)],
        [.createDirAll parent], false⟩ ∧
    ∀ p c : List Nat,
      FsAction.writeF p c ∉ (fileStep env (some (writeEffect pa ca))).actions := by
  have h1 : fileStep env (some (writeEffect pa ca)) =
      ⟨[(FileWire.write.toWire, writePoke pa ca false)],
        [.createDirAll parent], false⟩ := by
    rw [fileStep_decode, decodeRequest_write, if_pos hu]
    simp [dispatch, writeDispatch, hp, hc]
  refine ⟨h1, ?_⟩
  intro p c
  rw [h1]
  simp

/-- Witness for C5: writing to the path `"a"` in the environment where
every path has parent `"/"` and directory creation always fails. -/
theorem c5_dir_failure_no_write_witness :
    utf8Valid (natToBytesLE 97) = true ∧
    noDirEnv.parent? (natToBytesLE 97) = some [47] ∧
    noDirEnv.createDirOk [47] = false ∧
    (fileStep noDirEnv (some (writeEffect 97 104)) =
      ⟨[(FileWire.write.toWire, writePoke 97 104 false)],
        [.createDirAll [47]], false⟩ ∧
     ∀ p c : List Nat,
       FsAction.writeF p c ∉ (fileStep noDirEnv (some (writeEffect 97 104))).actions) :=
  ⟨by decide, by decide, by decide,
    c5_dir_failure_no_write noDirEnv 97 104 [47] (by decide) (by decide) (by decide)⟩

/-- The structural mismatches enumerated by the spec: the fetched value is
not a pair, or its head is not the `"file"` atom, or its tail is not a pair,
or the operation position does not hold a direct atom equal to `"read"` or
`"write"`. -/
def structMismatch : Noun → Bool
  | .atom _ => true
  | .cell head tail =>
    if head = Noun.atom (tas "file") then
      match tail with
      | .atom _ => true
      | .cell opN _ =>
        if asDirect opN = some (tas "read") then false
        else if asDirect opN = some (tas "write") then false
        else true
    else true

theorem structMismatch_unrecognized (n : Noun) (h : structMismatch n = true) :
    decodeRequest n = .unrecognized := by
  cases n with
  | atom a => rfl
  | cell head tail =>
    by_cases hh : head = Noun.atom (tas "file")
    · cases tail with
      | atom b => simp [decodeRequest, hh]
      | cell opN fileTail =>
        simp only [structMismatch, if_pos hh] at h
        rcases hop : asDirect opN with _ | tag
        · simp [decodeRequest, hh, hop]
        · rw [hop] at h
          by_cases hr : tag = tas "read"
          · rw [hr] at h; simp at h
          · by_cases hw : tag = tas "write"
            · rw [hw] at h; simp at h
            · simp [decodeRequest, hh, hop, hr, hw]
    · simp [decodeRequest, hh]

/-- C6: every fetched value that is a structural mismatch (not a pair, head
not `"file"`, tail not a pair, or operation tag neither `"read"` nor
`"write"`) produces no response, no filesystem action and no error, and the
loop goes on: a following request is processed exactly as if the mismatch
had never arrived. -/
theorem c6_mismatch_silently_skipped (env : FsEnv) (n : Noun)
    (rest : List (Option Noun)) (h : structMismatch n = true) :
    fileStep env (some n) = skipOut ∧
    runLoop env (some n :: rest) = runLoop env rest := by
  have h1 : fileStep env (some n) = skipOut := by
    rw [fileStep_decode, structMismatch_unrecognized n h]; rfl
  exact ⟨h1, runLoop_skip env (some n) rest h1⟩

/-- Witness for C6: the atom `5` (not a pair) followed by a well-formed
read request. -/
theorem c6_mismatch_silently_skipped_witness :
    structMismatch (.atom 5) = true ∧
    (fileStep nullEnv (some (.atom 5)) = skipOut ∧
     runLoop nullEnv (some (.atom 5) :: [some (readEffect 97)]) =
       runLoop nullEnv [some (readEffect 97)]) :=
  ⟨by decide, c6_mismatch_silently_skipped nullEnv (.atom 5) [some (readEffect 97)] (by decide)⟩

/-- C7: for every request of the correct shape whose path atom's bytes are
not valid UTF-8, the decode failure is fatal — the error propagates out of
the loop body with no poke and no filesystem action — in the read arm and
in the write arm alike. -/
theorem c7_utf8_failure_fatal (env : FsEnv) (pa ca : Nat)
    (hu : utf8Valid (natToBytesLE pa) = false) :
    fileStep env (some (readEffect pa)) = fatalOut ∧
    fileStep env (some (writeEffect pa ca)) = fatalOut := by
  constructor
  · rw [fileStep_decode, decodeRequest_read, if_neg (by simp [hu])]
    rfl
  · rw [fileStep_decode, decodeRequest_write, if_neg (by simp [hu])]
    rfl

/-- Witness for C7: the path atom `255`, whose single byte `0xFF` is not
valid UTF-8. -/
theorem c7_utf8_failure_fatal_witness :
    utf8Valid (natToBytesLE 255) = false ∧
    (fileStep nullEnv (some (readEffect 255)) = fatalOut ∧
     fileStep nullEnv (some (writeEffect 255 104)) = fatalOut) :=
  ⟨by decide, c7_utf8_failure_fatal nullEnv 255 104 (by decide)⟩

/-- C8 counterexample: the decode-failure mode is NOT mapped to a silent
skip, a logged continuation or an encoded failure response.  On the
correctly shaped read request whose path atom `255` is not valid UTF-8 the
iteration emits nothing and is fatal, and the loop terminates: the
well-formed request queued right behind it is never processed (the run ends
with no pokes at all). -/
theorem c8_counterexample_decode_failure_terminates :
    (fileStep nullEnv (some (readEffect 255))).fatal = true ∧
    runLoop nullEnv [some (readEffect 255), some (readEffect 97)] =
      ⟨[], [], true⟩ := by decide

/-- C8 (amended): directory-creation failure, read failure, write failure
and upstream channel (fetch) failure are each mapped to a silent skip, a
logged continuation or an encoded failure response and never terminate the
loop; a UTF-8 decode failure, however, propagates out of the loop body and
terminates the loop. -/
theorem c8_error_policy (env : FsEnv) :
    (fileStep env none).fatal = false ∧
    (∀ n : Noun, decodeRequest n ≠ .fatalDecode →
      (fileStep env (some n)).fatal = false) ∧
    (∀ n : Noun, decodeRequest n = .fatalDecode →
      fileStep env (some n) = fatalOut) := by
  refine ⟨rfl, ?_, ?_⟩
  · intro n h
    rw [fileStep_decode]
    cases hd : decodeRequest n with
    | readReq pa =>
      simp only [dispatch, readDispatch]
      cases env.readFile (natToBytesLE pa) with
      | some contents => rfl
      | none => rfl
    | writeReq pa ca =>
      simp only [dispatch, writeDispatch]
      cases env.parent? (natToBytesLE pa) with
      | some parent =>
        dsimp only
        by_cases hc : env.createDirOk parent = true
        · rw [if_pos hc]
        · rw [if_neg hc]
      | none => rfl
    | unrecognized => rfl
    | fatalDecode => exact absurd hd h
  · intro n h
    rw [fileStep_decode, h]
    rfl

/-- Witness for C8 (amended): a fetch failure, a read failure (no file
exists in `nullEnv`) and a decode failure, each at a concrete input. -/
theorem c8_error_policy_witness :
    (fileStep nullEnv none).fatal = false ∧
    (fileStep nullEnv (some (readEffect 97))).fatal = false ∧
    fileStep nullEnv (some (readEffect 255)) = fatalOut :=
  ⟨(c8_error_policy nullEnv).1,
   (c8_error_policy nullEnv).2.1 (readEffect 97) (by decide),
   (c8_error_policy nullEnv).2.2 (readEffect 255) (by decide)⟩

/-- C9: a fetched value of shape `("file", "read", t)` whose third element
is a pair is silently dropped exactly like a structural mismatch: no
response, no filesystem action, no error, and the loop goes on. -/
theorem c9_read_pair_tail_dropped (env : FsEnv) (t1 t2 : Noun)
    (rest : List (Option Noun)) :
    decodeRequest (T3 (.atom (tas "file")) (.atom (tas "read")) (.cell t1 t2)) =
      .unrecognized ∧
    fileStep env (some (T3 (.atom (tas "file")) (.atom (tas "read")) (.cell t1 t2))) =
      skipOut ∧
    runLoop env
        (some (T3 (.atom (tas "file")) (.atom (tas "read")) (.cell t1 t2)) :: rest) =
      runLoop env rest := by
  have hd : decodeRequest
      (T3 (.atom (tas "file")) (.atom (tas "read")) (.cell t1 t2)) = .unrecognized := by
    simp [decodeRequest, T3, asDirect_read]
  have h1 : fileStep env
      (some (T3 (.atom (tas "file")) (.atom (tas "read")) (.cell t1 t2))) = skipOut := by
    rw [fileStep_decode, hd]; rfl
  exact ⟨hd, h1, runLoop_skip env _ rest h1⟩

/-- C10: a fetched value of shape `("file", "write", (p, c))` whose
contents element is a pair is silently dropped before the path atom's UTF-8
check: even with a path atom whose bytes are invalid UTF-8, there is no
fatal error and no response. -/
theorem c10_write_pair_contents_dropped (env : FsEnv) (pa : Nat) (c1 c2 : Noun)
    (hu : utf8Valid (natToBytesLE pa) = false) :
    decodeRequest
        (T3 (.atom (tas "file")) (.atom (tas "write"))
          (.cell (.atom pa) (.cell c1 c2))) = .unrecognized ∧
    fileStep env
        (some (T3 (.atom (tas "file")) (.atom (tas "write"))
          (.cell (.atom pa) (.cell c1 c2)))) = skipOut := by
  have hd : decodeRequest
      (T3 (.atom (tas "file")) (.atom (tas "write"))
        (.cell (.atom pa) (.cell c1 c2))) = .unrecognized := by
    simp [decodeRequest, T3, asDirect_write, tas_write_ne_read]
  refine ⟨hd, ?_⟩
  rw [fileStep_decode, hd]
  rfl

/-- Witness for C10: path atom `255` (invalid UTF-8) with a pair in the
contents position. -/
theorem c10_write_pair_contents_dropped_witness :
    utf8Valid (natToBytesLE 255) = false ∧
    (decodeRequest
        (T3 (.atom (tas "file")) (.atom (tas "write"))
          (.cell (.atom 255) (.cell (.atom 0) (.atom 0)))) = .unrecognized ∧
     fileStep nullEnv
        (some (T3 (.atom (tas "file")) (.atom (tas "write"))
          (.cell (.atom 255) (.cell (.atom 0) (.atom 0))))) = skipOut) :=
  ⟨by decide,
   c10_write_pair_contents_dropped nullEnv 255 (.atom 0) (.atom 0) (by decide)⟩
